import Mathlib

/-!
Verification of the pyfr24 export pipeline and smart flight-disambiguation
logic (`pyfr24/client.py`: `FR24API.export_flight_data`,
`FR24API.smart_export_flight`, `_create_kml_from_tracks`,
`FR24API.enhanced_plot_flight`, `FR24API._plot_speed_chart`,
`FR24API._plot_altitude_chart`).

The Python code is shallowly embedded: decoded JSON values become the
inductive `JVal` (numbers are modelled as integers; float formatting is not
relevant to any property below), Python dicts become association lists,
raised exceptions become `Except PyErr`, and the HTTP gateway and the
matplotlib / geopandas / contextily plotting backends become explicit
parameters (`tracksFor`, `PlotEnv`), since the source treats them as
external collaborators.  Filesystem effects are recorded as an explicit
list of `FsOp` events instead of being performed.
-/

namespace PyFR24

/-- A decoded JSON / Python value, as handled by `client.py`.  Objects are
association lists in insertion order (Python dicts have unique keys; lookups
take the first match). -/
inductive JVal where
  | null
  | str (s : String)
  | num (n : Int)
  | list (xs : List JVal)
  | obj (kvs : List (String × JVal))

mutual
/-- Decidable equality on `JVal` (written out because the nested
inductive defeats the derive handler). -/
def JVal.decEq : (a b : JVal) → Decidable (a = b)
  | .null, .null => isTrue rfl
  | .null, .str _ => isFalse nofun
  | .null, .num _ => isFalse nofun
  | .null, .list _ => isFalse nofun
  | .null, .obj _ => isFalse nofun
  | .str _, .null => isFalse nofun
  | .str a, .str b =>
    if h : a = b then isTrue (by rw [h]) else isFalse fun c => h (JVal.str.inj c)
  | .str _, .num _ => isFalse nofun
  | .str _, .list _ => isFalse nofun
  | .str _, .obj _ => isFalse nofun
  | .num _, .null => isFalse nofun
  | .num _, .str _ => isFalse nofun
  | .num a, .num b =>
    if h : a = b then isTrue (by rw [h]) else isFalse fun c => h (JVal.num.inj c)
  | .num _, .list _ => isFalse nofun
  | .num _, .obj _ => isFalse nofun
  | .list _, .null => isFalse nofun
  | .list _, .str _ => isFalse nofun
  | .list _, .num _ => isFalse nofun
  | .list xs, .list ys =>
    match JVal.decEqList xs ys with
    | isTrue h => isTrue (by rw [h])
    | isFalse h => isFalse fun c => h (JVal.list.inj c)
  | .list _, .obj _ => isFalse nofun
  | .obj _, .null => isFalse nofun
  | .obj _, .str _ => isFalse nofun
  | .obj _, .num _ => isFalse nofun
  | .obj _, .list _ => isFalse nofun
  | .obj xs, .obj ys =>
    match JVal.decEqObj xs ys with
    | isTrue h => isTrue (by rw [h])
    | isFalse h => isFalse fun c => h (JVal.obj.inj c)

/-- Decidable equality on lists of `JVal`. -/
def JVal.decEqList : (xs ys : List JVal) → Decidable (xs = ys)
  | [], [] => isTrue rfl
  | [], _ :: _ => isFalse nofun
  | _ :: _, [] => isFalse nofun
  | x :: xs, y :: ys =>
    match JVal.decEq x y with
    | isFalse h => isFalse fun c => h (List.cons.inj c).1
    | isTrue h1 =>
      match JVal.decEqList xs ys with
      | isTrue h2 => isTrue (by rw [h1, h2])
      | isFalse h => isFalse fun c => h (List.cons.inj c).2

/-- Decidable equality on dict entry lists. -/
def JVal.decEqObj : (xs ys : List (String × JVal)) → Decidable (xs = ys)
  | [], [] => isTrue rfl
  | [], _ :: _ => isFalse nofun
  | _ :: _, [] => isFalse nofun
  | (k, v) :: xs, (k2, v2) :: ys =>
    if hk : k = k2 then
      match JVal.decEq v v2 with
      | isFalse h => isFalse fun c => h (congrArg Prod.snd (List.cons.inj c).1)
      | isTrue h1 =>
        match JVal.decEqObj xs ys with
        | isTrue h2 => isTrue (by rw [hk, h1, h2])
        | isFalse h => isFalse fun c => h (List.cons.inj c).2
    else isFalse fun c => hk (congrArg Prod.fst (List.cons.inj c).1)
end

instance : DecidableEq JVal := JVal.decEq

deriving instance DecidableEq for Except

/-- A Python dict with string keys, e.g. one track point or one flight
summary record. -/
abbrev Obj := List (String × JVal)

/-- Python `s.replace(old, new)` for a single-character `old` (the only
pattern shape the source uses): each occurrence of the character is
replaced by `new`, which may be empty. -/
def pyReplace1 (s : String) (c : Char) (t : String) : String :=
  ⟨s.data.flatMap fun ch => if ch = c then t.data else [ch]⟩

/-- Python `s[:n]`: the first `n` code points of `s`. -/
def pyTake (s : String) (n : Nat) : String :=
  ⟨s.data.take n⟩

/-- Lexicographic comparison of char lists by Unicode code point,
exactly Python `<` on strings. -/
def strLtB : List Char → List Char → Bool
  | [], [] => false
  | [], _ :: _ => true
  | _ :: _, [] => false
  | a :: as, b :: bs =>
    if a.toNat < b.toNat then true
    else if b.toNat < a.toNat then false
    else strLtB as bs

/-- Python `a < b` on strings. -/
def pyStrLt (a b : String) : Bool :=
  strLtB a.data b.data

/-- `d[k]` lookup returning `none` when the key is absent
(`k in d` / `d.get(k)` with no hit). -/
def objGet (o : Obj) (k : String) : Option JVal :=
  (o.find? (fun kv => kv.1 == k)).map (·.2)

/-- Python `d.get(k)`: absent keys give `None`. -/
def getN (o : Obj) (k : String) : JVal :=
  (objGet o k).getD .null

/-- Python `d.get(k, default)`. -/
def getD (o : Obj) (k : String) (d : JVal) : JVal :=
  (objGet o k).getD d

/-- Python truthiness on our value universe: `None`, `""`, `0`, `[]` and
`{}` are falsy. -/
def truthy : JVal → Bool
  | .null => false
  | .str s => !(s == "")
  | .num n => !(n == 0)
  | .list xs => !xs.isEmpty
  | .obj kvs => !kvs.isEmpty

/-- Python `a or b`: the first operand when it is truthy, else the second. -/
def pyOr (a b : JVal) : JVal :=
  if truthy a then a else b

/-- The exceptions the embedded fragment can raise, following the
repository error taxonomy (`pyfr24/exceptions.py`) plus the builtin Python
errors the dynamic code can produce.  `chartFail` stands for an exception
escaping one of the three unguarded image-rendering stages. -/
inductive PyErr where
  | validation (msg : String)
  | typeError (msg : String)
  | attrError (msg : String)
  | chartFail (which : String)
deriving DecidableEq

/-- `client.py` lines 526-536: shape sniffing of the raw tracks response.
A list whose single element is a dict containing `"tracks"` yields that
value; any other list is the point list itself; a dict yields its
`"tracks"` entry (default `[]`); anything else raises
`FR24ValidationError("Unexpected data format")`. -/
def extractTracks : JVal → Except PyErr JVal
  | .list xs =>
    match xs with
    | [.obj kvs] =>
      if (objGet kvs "tracks").isSome then .ok (getN kvs "tracks")
      else .ok (.list xs)
    | _ => .ok (.list xs)
  | .obj kvs => .ok (getD kvs "tracks" (.list []))
  | _ => .error (.validation "Unexpected data format")

/-- CPython `a < b` on our value universe: defined for two strings
(lexicographic) and two numbers; any comparison involving `None` or a
mixed pair raises `TypeError`. -/
def pyLt : JVal → JVal → Except PyErr Bool
  | .str a, .str b => .ok (pyStrLt a b)
  | .num a, .num b => .ok (decide (a < b))
  | _, _ => .error (.typeError "unorderable types")

/-- Sort key of `sorted(tracks, key=lambda x: x.get("timestamp", ""))`
(line 543): the raw `timestamp` value, defaulting to `""` only when the
key is absent. -/
def tsKey (t : Obj) : JVal :=
  getD t "timestamp" (.str "")

/-- Whether every track point's sort key is a string (the shape the API
documents for `timestamp`); exactly then is every comparison made by the
sort defined. -/
def strKeys (ts : List Obj) : Bool :=
  ts.all fun t => match tsKey t with | .str _ => true | _ => false

/-- The string sort key, for points whose raw key is a string. -/
def keyStr (t : Obj) : String :=
  match tsKey t with | .str s => s | _ => ""

/-- The comparison used by the timestamp sort, on string keys:
`keyStr a <= keyStr b`. -/
def trackLe (a b : Obj) : Bool :=
  !pyStrLt (keyStr b) (keyStr a)

/-- The timestamp sort on its defined domain: Python `sorted` is a stable
sort, modelled by `List.mergeSort`. -/
def sortTracks (ts : List Obj) : List Obj :=
  ts.mergeSort trackLe

/-- `sorted(tracks, key=lambda x: x.get("timestamp", ""))` with CPython
error behaviour: with at most one element no comparison is made; with two
or more elements every element takes part in at least one adjacent-pair
comparison while the sort detects runs, so a non-string key (given that
the default for a missing key is the string `""`) makes some comparison
raise `TypeError`.  (CPython would additionally accept keys that are all
numbers; the `timestamp` field is specified as a string, and no property
below exercises that corner.) -/
def sortTracksE (ts : List Obj) : Except PyErr (List Obj) :=
  if ts.length ≤ 1 then .ok ts
  else if strKeys ts then .ok (sortTracks ts)
  else .error (.typeError "unorderable types")

/-- Selection key of `smart_export_flight` lines 835 and 837:
`x.get('datetime_takeoff', '') or x.get('first_seen', '')` — note the
Python `or`, which falls back whenever `datetime_takeoff` is falsy
(absent, `None` or `""`). -/
def selKey (c : Obj) : JVal :=
  pyOr (getD c "datetime_takeoff" (.str "")) (getD c "first_seen" (.str ""))

/-- Selection key as the specification words it: `datetime_takeoff`,
falling back to `first_seen` only when `datetime_takeoff` is absent.
Stated only to be compared against the source's `selKey`. -/
def selKeySpec (c : Obj) : JVal :=
  match objGet c "datetime_takeoff" with
  | some v => v
  | none => getD c "first_seen" (.str "")

/-- CPython `max(it, key=key)` run from a current best over the remaining
items: a later item replaces the best exactly when `key item > key best`;
hence the first item with the maximal key wins. -/
def pyMaxBy (key : Obj → JVal) : Obj → List Obj → Except PyErr Obj
  | cur, [] => .ok cur
  | cur, x :: xs =>
    match pyLt (key cur) (key x) with
    | .error e => .error e
    | .ok true => pyMaxBy key x xs
    | .ok false => pyMaxBy key cur xs

/-- CPython `min(it, key=key)`: a later item replaces the best exactly
when `key item < key best`. -/
def pyMinBy (key : Obj → JVal) : Obj → List Obj → Except PyErr Obj
  | cur, [] => .ok cur
  | cur, x :: xs =>
    match pyLt (key x) (key cur) with
    | .error e => .error e
    | .ok true => pyMinBy key x xs
    | .ok false => pyMinBy key cur xs

mutual
/-- Python `repr` of a value (numbers are modelled as integers, so their
rendering is the decimal string). -/
def pyRepr : JVal → String
  | .null => "None"
  | .str s => "\x27" ++ s ++ "\x27"
  | .num n => toString n
  | .list xs => "[" ++ pyReprList xs ++ "]"
  | .obj kvs => "\x7b" ++ pyReprObj kvs ++ "\x7d"

/-- Comma-separated `repr`s of a list's elements. -/
def pyReprList : List JVal → String
  | [] => ""
  | [x] => pyRepr x
  | x :: y :: xs => pyRepr x ++ ", " ++ pyReprList (y :: xs)

/-- Comma-separated `key: value` renderings of a dict's items. -/
def pyReprObj : List (String × JVal) → String
  | [] => ""
  | [(k, v)] => "\x27" ++ k ++ "\x27: " ++ pyRepr v
  | (k, v) :: kv :: kvs =>
    "\x27" ++ k ++ "\x27: " ++ pyRepr v ++ ", " ++ pyReprObj (kv :: kvs)
end

/-- Python `str`: identity on strings, `repr` otherwise. -/
def pyStr : JVal → String
  | .str s => s
  | v => pyRepr v

/-- `v` as a string, raising `TypeError` when the Python code would apply
a string operation (slicing, `.replace`) to a non-string value. -/
def asStr : JVal → Except PyErr String
  | .str s => .ok s
  | _ => .error (.typeError "expected a string")

/-- `csv.DictWriter` cell rendering: `None` becomes the empty string,
anything else its `str`. -/
def csvCell : JVal → String
  | .null => ""
  | v => pyStr v

/-- The fixed CSV column order (line 553). -/
def csvFieldnames : List String :=
  ["timestamp", "lat", "lon", "alt", "gspeed", "vspeed", "track",
   "squawk", "callsign", "source"]

/-- The rows of `data.csv` (lines 551-559): the header, then one row per
point built by `{k: track.get(k, "") for k in fieldnames}`. -/
def csvRows (ts : List Obj) : List (List String) :=
  csvFieldnames ::
    ts.map fun t => csvFieldnames.map fun k => csvCell (getD t k (.str ""))

/-- `points.geojson` (lines 562-576): one `Point` feature per point with
raw `lon` / `lat` (possibly `null`) and the full record as properties. -/
def pointsGeojson (ts : List Obj) : JVal :=
  .obj [("type", .str "FeatureCollection"),
        ("features", .list (ts.map fun t =>
          .obj [("type", .str "Feature"),
                ("geometry", .obj [("type", .str "Point"),
                                   ("coordinates", .list [getN t "lon", getN t "lat"])]),
                ("properties", .obj t)]))]

/-- The `LineString` coordinates (lines 583-588): only points where both
`lon` and `lat` are not `None`, in sorted order. -/
def lineCoords (ts : List Obj) : List JVal :=
  ts.filterMap fun t =>
    match getN t "lon", getN t "lat" with
    | .null, _ => none
    | _, .null => none
    | lon, lat => some (.list [lon, lat])

/-- `line.geojson` (lines 589-599): a single `LineString` feature with
empty properties. -/
def lineGeojson (ts : List Obj) : JVal :=
  .obj [("type", .str "FeatureCollection"),
        ("features", .list [
          .obj [("type", .str "Feature"),
                ("geometry", .obj [("type", .str "LineString"),
                                   ("coordinates", .list (lineCoords ts))]),
                ("properties", .obj [])]])]

/-- `_create_kml_from_tracks` lines 87-94: one `lon,lat,alt` triple per
point having both `lon` and `lat` not `None`; `alt` defaults to `0` when
absent. -/
def kmlCoords (ts : List Obj) : List String :=
  ts.filterMap fun t =>
    match getN t "lon", getN t "lat" with
    | .null, _ => none
    | _, .null => none
    | lon, lat =>
      some (pyStr lon ++ "," ++ pyStr lat ++ "," ++ pyStr (getD t "alt" (.num 0)))

/-- A filesystem effect of the export (recorded, not performed). -/
inductive FsOp where
  | mkdir (path : String)
  | writeCsv (path : String) (rows : List (List String))
  | writeJson (path : String) (v : JVal)
  | writeKml (path : String) (coords : List String)
  | writeImage (path : String)
deriving DecidableEq

/-- Outcomes of the external plotting collaborators (pandas, matplotlib,
geopandas, contextily), one flag per stage of the source.  `true` means
the library call succeeds.  Flags marked UNGUARDED correspond to calls
the source does not wrap in `try`/`except`:
  * `mkGeoDataFrame`: lines 415-420 (guarded);
  * `toCrs`: lines 423-428 (guarded);
  * `axPlot`: lines 447-451, `plt.subplots` / `ax.plot` (UNGUARDED);
  * `setBounds`: lines 454-467 (guarded);
  * `addBasemap`: lines 470-487 (guarded);
  * `finalizePlot`: lines 489-491, `tight_layout` / `title` (UNGUARDED);
  * `saveMap`: lines 493-500 (guarded);
  * `saveSpeed`: lines 670-701, the style/figure/plot/`savefig` block of
    `_plot_speed_chart` (UNGUARDED);
  * `saveAlt`: lines 748-781, the same block of `_plot_altitude_chart`
    (UNGUARDED).
`toDatetime` tells whether `pd.to_datetime` parses a given string, and
`strFloat` whether / how `float()` parses a given string; both are used
inside per-point `try`/`except` blocks that skip the point on failure. -/
structure PlotEnv where
  mkGeoDataFrame : Bool
  toCrs : Bool
  axPlot : Bool
  setBounds : Bool
  addBasemap : Bool
  finalizePlot : Bool
  saveMap : Bool
  saveSpeed : Bool
  saveAlt : Bool
  toDatetime : String → Bool
  strFloat : String → Option Int

/-- `enhanced_plot_flight` (lines 387-500) on an already-sorted track
list: an empty list or a failure in any guarded stage logs and returns
(artifact skipped); a failure in an unguarded matplotlib call escapes. -/
def enhancedPlot (env : PlotEnv) (ts : List Obj) (path : String) :
    Except PyErr (List FsOp) :=
  if ts.isEmpty then .ok []
  else if !env.mkGeoDataFrame then .ok []
  else if !env.toCrs then .ok []
  else if !env.axPlot then .error (.chartFail "map")
  else if !env.setBounds then .ok []
  else if !env.addBasemap then .ok []
  else if !env.finalizePlot then .error (.chartFail "map")
  else if !env.saveMap then .ok []
  else .ok [.writeImage path]

/-- The per-point filter shared by `_plot_speed_chart` (lines 633-661,
`field = "gspeed"`, bound 1000) and `_plot_altitude_chart` (lines
711-739, `field = "alt"`, bound 50000): skip a point whose `timestamp`
is missing, `None`, or fails to parse; substitute `0` for a missing or
`None` field value; skip when `float()` fails or the value falls outside
`[0, bound]`.  Exceptions inside the loop body are caught per point. -/
def chartSeries (env : PlotEnv) (field : String) (bound : Int)
    (ts : List Obj) : List Int :=
  ts.filterMap fun t =>
    match objGet t "timestamp" with
    | none => none
    | some .null => none
    | some (.str s) =>
      if env.toDatetime s then
        (match objGet t field with
         | none => some 0
         | some .null => some 0
         | some (.num n) => some n
         | some (.str v) => env.strFloat v
         | some _ => none).bind fun v =>
          if v < 0 || bound < v then none else some v
      else none
    | some _ => none

/-- `_plot_speed_chart` (lines 626-702): with no surviving point the
chart is skipped with a warning; otherwise the unguarded plotting block
runs and its failure escapes. -/
def plotSpeedChart (env : PlotEnv) (ts : List Obj) (path : String) :
    Except PyErr (List FsOp) :=
  if (chartSeries env "gspeed" 1000 ts).isEmpty then .ok []
  else if !env.saveSpeed then .error (.chartFail "speed")
  else .ok [.writeImage path]

/-- `_plot_altitude_chart` (lines 704-782), same shape with the altitude
bound. -/
def plotAltChart (env : PlotEnv) (ts : List Obj) (path : String) :
    Except PyErr (List FsOp) :=
  if (chartSeries env "alt" 50000 ts).isEmpty then .ok []
  else if !env.saveAlt then .error (.chartFail "altitude")
  else .ok [.writeImage path]

/-- Helper of `asObjList` over the elements of a list value.  Any
non-dict element makes the sort key function raise `AttributeError`. -/
def asObjListGo : List JVal → Except PyErr (List Obj)
  | [] => .ok []
  | .obj kvs :: rest =>
    match asObjListGo rest with
    | .ok os => .ok (kvs :: os)
    | .error e => .error e
  | _ :: _ => .error (.attrError "track point has no attribute get")

/-- The elements of the (truthy) extracted tracks value as dicts:
`sorted(tracks, key=...)` applies the key function to every element, so
a non-list value or a non-dict element raises before any artifact is
produced. -/
def asObjList : JVal → Except PyErr (List Obj)
  | .list xs => asObjListGo xs
  | _ => .error (.typeError "tracks value is not a list")

/-- `export_flight_data` (lines 502-624), with the tracks fetch
externalized as `tracksFor`.  Returns the filesystem events that happened
before the call finished or raised, and either the raised error or the
Python return value (`none` for Python `None`, returned when the
extracted track list is falsy, before any directory or file is touched). -/
def exportFlightData (env : PlotEnv) (tracksFor : String → JVal)
    (flight_id : String) (output_dir : Option String) :
    List FsOp × Except PyErr (Option String) :=
  match extractTracks (tracksFor flight_id) with
  | .error e => ([], .error e)
  | .ok tracks =>
    if !truthy tracks then ([], .ok none)
    else
      match asObjList tracks with
      | .error e => ([], .error e)
      | .ok ts =>
        match sortTracksE ts with
        | .error e => ([], .error e)
        | .ok sorted =>
          let dir := match output_dir with
            | none => "data/" ++ flight_id
            | some s => s
          let baseOps : List FsOp :=
            [.mkdir dir,
             .writeCsv (dir ++ "/data.csv") (csvRows sorted),
             .writeJson (dir ++ "/points.geojson") (pointsGeojson sorted),
             .writeJson (dir ++ "/line.geojson") (lineGeojson sorted),
             .writeKml (dir ++ "/track.kml") (kmlCoords sorted)]
          match enhancedPlot env sorted (dir ++ "/map.png") with
          | .error e => (baseOps, .error e)
          | .ok m =>
            match plotSpeedChart env sorted (dir ++ "/speed.png") with
            | .error e => (baseOps ++ m, .error e)
            | .ok sp =>
              match plotAltChart env sorted (dir ++ "/altitude.png") with
              | .error e => (baseOps ++ m ++ sp, .error e)
              | .ok al => (baseOps ++ m ++ sp ++ al, .ok (some dir))

/-- Outcome of the candidate-selection block of `smart_export_flight`
(lines 829-841): a concrete chosen record, "hand the options back to the
caller", or "invalid `auto_select` value". -/
inductive SelOutcome where
  | chosen (c : Obj)
  | options
  | invalid
deriving DecidableEq

/-- Lines 829-841 for a non-empty candidate list `d0 :: rest`: a single
candidate is chosen unconditionally; otherwise dispatch on `auto_select`
(`none` models Python `None`).  `max` / `min` raise when the selection
keys are not mutually comparable.  The integer case requires
`0 <= auto_select < len(data)`; every other value is invalid. -/
def smartSelectE (d0 : Obj) (rest : List Obj) (auto_select : Option JVal) :
    Except PyErr SelOutcome :=
  if rest.isEmpty then .ok (.chosen d0)
  else
    match auto_select with
    | none => .ok .options
    | some (.str "latest") => (pyMaxBy selKey d0 rest).map .chosen
    | some (.str "earliest") => (pyMinBy selKey d0 rest).map .chosen
    | some (.num i) =>
      if 0 ≤ i ∧ i < 1 + rest.length then
        match (d0 :: rest).get? i.toNat with
        | some c => .ok (.chosen c)
        | none => .ok .invalid
      else .ok .invalid
    | some _ => .ok .invalid

/-- Lines 842-853: derive the output directory and flight id from the
selected record.  Evaluation order follows the source: `date_str`
slicing (line 845) and the `dep_time` chain (line 847) run first and
raise on a non-string value; the `orig` / `dest` `.replace` calls (lines
851-852) run only when no (truthy) `output_dir` was supplied.  Returns
the output directory together with the `str()` of the flight id. -/
def deriveOutputDir (selected : Obj) (flight_number date : String)
    (output_dir : Option String) : Except PyErr (String × String) :=
  let orig := pyOr (getN selected "orig_icao")
    (pyOr (getN selected "origin") (.str "ORIG"))
  let dest := pyOr (getN selected "dest_icao_actual")
    (pyOr (getN selected "dest_icao")
      (pyOr (getN selected "destination") (.str "DEST")))
  let dateV := pyOr (getN selected "datetime_takeoff")
    (pyOr (getN selected "first_seen") (.str date))
  let flightIdV := pyOr (getN selected "fr24_id")
    (pyOr (getN selected "id") (.str "UNKNOWNID"))
  let depV := pyOr (getN selected "datetime_takeoff")
    (pyOr (getN selected "first_seen") (.str ""))
  match asStr dateV with
  | .error e => .error e
  | .ok dateS =>
    match asStr depV with
    | .error e => .error e
    | .ok depS =>
      let _depTime :=
        pyTake (pyReplace1 (pyReplace1 (pyReplace1 depS ':' "") '-' "") 'T' "") 8
      let flight_id := pyStr flightIdV
      if (match output_dir with | none => true | some s => s == "") then
        match asStr orig with
        | .error e => .error e
        | .ok origS =>
          match asStr dest with
          | .error e => .error e
          | .ok destS =>
            .ok ("data/"
              ++ pyReplace1 (pyReplace1 flight_number '/' "_") ' ' ""
              ++ "_" ++ pyTake dateS 10
              ++ "_" ++ pyReplace1 origS '/' "_"
              ++ "-" ++ pyReplace1 destS '/' "_"
              ++ "_" ++ flight_id, flight_id)
      else .ok ((output_dir.getD ""), flight_id)

/-- Python `None`-or-string as a `JVal`. -/
def optStr : Option String → JVal
  | none => .null
  | some s => .str s

/-- `smart_export_flight` (lines 797-859) with the summary fetch
externalized: `data` is `summary.get('data', [])` for the resolved
datetime range (the range expansion of lines 813-818 only parameterizes
that fetch).  Returns the recorded filesystem events and either a raised
error or the returned Python dict, whose key set follows each source
`return` literally. -/
def smartExportFlight (env : PlotEnv) (tracksFor : String → JVal)
    (flight_number date : String) (output_dir : Option String)
    (auto_select : Option JVal) (data : List Obj) :
    List FsOp × Except PyErr Obj :=
  match data with
  | [] =>
    ([], .ok [("output_dir", .null), ("selected", .null),
              ("options", .list []),
              ("error", .str ("No flights found for " ++ flight_number
                               ++ " on " ++ date))])
  | d0 :: rest =>
    if rest.isEmpty || auto_select.isSome then
      match smartSelectE d0 rest auto_select with
      | .error e => ([], .error e)
      | .ok .options =>
        -- unreachable under the branch condition; mirrors the else-branch
        ([], .ok [("output_dir", .null), ("selected", .null),
                  ("options", .list (data.map .obj))])
      | .ok .invalid =>
        ([], .ok [("output_dir", .null), ("selected", .null),
                  ("options", .list (data.map .obj)),
                  ("error", .str "Invalid auto_select value")])
      | .ok (.chosen selected) =>
        match deriveOutputDir selected flight_number date output_dir with
        | .error e => ([], .error e)
        | .ok (outDir, flight_id) =>
          let res := exportFlightData env tracksFor flight_id (some outDir)
          match res.2 with
          | .error e => (res.1, .error e)
          | .ok exportDir =>
            (res.1, .ok [("output_dir", optStr exportDir),
                         ("selected", .obj selected),
                         ("options", .list (data.map .obj))])
    else
      ([], .ok [("output_dir", .null), ("selected", .null),
                ("options", .list (data.map .obj))])


/-- A plotting environment in which every external plotting stage
succeeds, timestamps parse, and `float()` parses strings to `0`. -/
def envOk : PlotEnv :=
  ⟨true, true, true, true, true, true, true, true, true,
   fun _ => true, fun _ => some 0⟩

/-- Like `envOk`, but the unguarded plotting block of
`_plot_speed_chart` fails. -/
def envBadSpeed : PlotEnv :=
  ⟨true, true, true, true, true, true, true, false, true,
   fun _ => true, fun _ => some 0⟩

/-- Like `envOk`, but every guarded plotting stage fails. -/
def envGuardFail : PlotEnv :=
  ⟨false, false, true, false, false, true, false, true, true,
   fun _ => true, fun _ => some 0⟩

/-- A well-formed track point. -/
def trackPoint1 : Obj :=
  [("timestamp", .str "2025-04-22T12:00:00Z"), ("lat", .num 40),
   ("lon", .num (-74)), ("gspeed", .num 100), ("alt", .num 1000)]

/-- A raw tracks response holding a single point. -/
def oneTrack : JVal :=
  .list [.obj trackPoint1]

/-- A track point with a string timestamp. -/
def pStrPoint : Obj :=
  [("timestamp", JVal.str "2025-01-01T00:00:00Z")]

/-- A track point whose `timestamp` is present but `None`. -/
def pNullPoint : Obj :=
  [("timestamp", JVal.null)]

/-- A candidate with a present-but-empty `datetime_takeoff` and a late
`first_seen`. -/
def candA : Obj :=
  [("datetime_takeoff", .str ""),
   ("first_seen", .str "2025-03-01T23:00:00Z"), ("fr24_id", .str "idA")]

/-- A candidate with an early `datetime_takeoff`. -/
def candB : Obj :=
  [("datetime_takeoff", .str "2025-03-01T10:00:00Z"),
   ("fr24_id", .str "idB")]

/-- First of the three candidates of the specification's `latest`
example. -/
def candT1 : Obj :=
  [("datetime_takeoff", .str "2025-03-01T10:00:00Z"), ("fr24_id", .str "a")]

/-- Second (latest departure) of the three candidates. -/
def candT2 : Obj :=
  [("datetime_takeoff", .str "2025-03-01T14:00:00Z"), ("fr24_id", .str "b")]

/-- Third (earliest departure) of the three candidates. -/
def candT3 : Obj :=
  [("datetime_takeoff", .str "2025-03-01T09:00:00Z"), ("fr24_id", .str "c")]

/-- The flight summary record of the specification's output-directory
example. -/
def selUA : Obj :=
  [("fr24_id", .str "3a01b036"),
   ("datetime_takeoff", .str "2025-04-22T12:00:00Z"),
   ("orig_icao", .str "KEWR"), ("dest_icao_actual", .str "KDEN")]

/-- The string under a selection key, `""` for a non-string key. -/
def selKeyStr (c : Obj) : String :=
  match selKey c with | .str s => s | _ => ""

/-- A track point with no timestamp key at all. -/
def pNoTsPoint : Obj :=
  [("lat", JVal.num 1)]

theorem strLtB_irrefl : ∀ l, strLtB l l = false
  | [] => rfl
  | _ :: as => by simp [strLtB, strLtB_irrefl as]

theorem strLtB_nil_right : ∀ l, strLtB l [] = false
  | [] => rfl
  | _ :: _ => rfl

theorem strLtB_asymm : ∀ a b, strLtB a b = true → strLtB b a = false
  | [], [] => by simp [strLtB]
  | [], _ :: _ => by simp [strLtB]
  | _ :: _, [] => by simp [strLtB]
  | a :: as, b :: bs => by
    simp only [strLtB]
    rcases Nat.lt_trichotomy a.toNat b.toNat with h | h | h
    · simp [h, Nat.lt_asymm h]
    · simp [h, Nat.lt_irrefl]
      exact strLtB_asymm as bs
    · simp [h, Nat.lt_asymm h]

theorem strLtB_trans : ∀ a b c, strLtB a b = true → strLtB b c = true →
    strLtB a c = true
  | _, [], [] => by simp [strLtB]
  | _, _ :: _, [] => by simp [strLtB]
  | [], [], _ :: _ => by simp [strLtB]
  | [], _ :: _, _ :: _ => by simp [strLtB]
  | _ :: _, [], _ :: _ => by simp [strLtB]
  | a :: as, b :: bs, c :: cs => by
    simp only [strLtB]
    intro h1 h2
    rcases Nat.lt_trichotomy a.toNat b.toNat with hab | hab | hab
    · rcases Nat.lt_trichotomy b.toNat c.toNat with hbc | hbc | hbc
      · simp [show a.toNat < c.toNat by omega]
      · simp [show a.toNat < c.toNat by omega]
      · simp [show ¬ b.toNat < c.toNat by omega, hbc] at h2
    · rcases Nat.lt_trichotomy b.toNat c.toNat with hbc | hbc | hbc
      · simp [show a.toNat < c.toNat by omega]
      · simp [show ¬ a.toNat < b.toNat by omega,
              show ¬ b.toNat < a.toNat by omega] at h1
        simp [show ¬ b.toNat < c.toNat by omega,
              show ¬ c.toNat < b.toNat by omega] at h2
        simp [show ¬ a.toNat < c.toNat by omega,
              show ¬ c.toNat < a.toNat by omega]
        exact strLtB_trans as bs cs h1 h2
      · simp [show ¬ b.toNat < c.toNat by omega, hbc] at h2
    · simp [show ¬ a.toNat < b.toNat by omega, hab] at h1

theorem strLtB_conn : ∀ a b, strLtB a b = false → strLtB b a = false → a = b
  | [], [] => by simp
  | [], _ :: _ => by simp [strLtB]
  | _ :: _, [] => by simp [strLtB]
  | a :: as, b :: bs => by
    simp only [strLtB]
    rcases Nat.lt_trichotomy a.toNat b.toNat with h | h | h
    · simp [h]
    · have hab : a = b := Char.ext (UInt32.toNat.inj h)
      subst hab
      simp [show ¬ a.toNat < a.toNat by omega]
      exact strLtB_conn as bs
    · simp [h, Nat.lt_asymm h]

theorem strLtB_le_trans (a b c : List Char) (h1 : strLtB b a = false)
    (h2 : strLtB c b = false) : strLtB c a = false := by
  by_contra h
  rw [Bool.not_eq_false] at h
  rcases Bool.eq_false_or_eq_true (strLtB b c) with hbc | hbc
  · have := strLtB_trans b c a hbc h
    rw [this] at h1
    cases h1
  · rcases strLtB_conn b c hbc h2 with rfl
    rw [h] at h1
    cases h1

theorem trackLe_total (a b : Obj) : trackLe a b || trackLe b a := by
  simp only [trackLe, pyStrLt, Bool.or_eq_true, Bool.not_eq_true']
  rcases Bool.eq_false_or_eq_true (strLtB (keyStr b).data (keyStr a).data)
    with h | h
  · exact Or.inr (strLtB_asymm _ _ h)
  · exact Or.inl h

theorem trackLe_trans (a b c : Obj) (h1 : trackLe a b) (h2 : trackLe b c) :
    trackLe a c := by
  simp only [trackLe, pyStrLt, Bool.not_eq_true'] at *
  exact strLtB_le_trans _ _ _ h1 h2

theorem pyMaxBy_selKey_spec : ∀ (xs : List Obj) (cur : Obj),
    (∀ x ∈ cur :: xs, ∃ s, selKey x = .str s) →
    ∃ m, pyMaxBy selKey cur xs = .ok m ∧ m ∈ cur :: xs ∧
      ∀ x ∈ cur :: xs, pyStrLt (selKeyStr m) (selKeyStr x) = false
  | [], cur, _ => by
    refine ⟨cur, rfl, List.mem_cons_self _ _, ?_⟩
    intro x hx
    rcases List.mem_singleton.mp hx with rfl
    simp [pyStrLt, strLtB_irrefl]
  | x :: rest, cur, hstr => by
    obtain ⟨sc, hsc⟩ := hstr cur (List.mem_cons_self _ _)
    obtain ⟨sx, hsx⟩ := hstr x (by simp)
    have hkc : selKeyStr cur = sc := by simp [selKeyStr, hsc]
    have hkx : selKeyStr x = sx := by simp [selKeyStr, hsx]
    rcases Bool.eq_false_or_eq_true (pyStrLt sc sx) with hcmp | hcmp
    all_goals simp only [pyMaxBy, hsc, hsx, pyLt, hcmp]
    · -- key cur < key x: x becomes the running best
      obtain ⟨m, hm, hmem, hmax⟩ := pyMaxBy_selKey_spec rest x
        (by
          intro y hy
          rcases List.mem_cons.mp hy with rfl | hy
          · exact ⟨sx, hsx⟩
          · exact hstr y (by simp [hy]))
      refine ⟨m, hm, ?_, ?_⟩
      · rcases List.mem_cons.mp hmem with rfl | hmem
        · simp
        · simp [List.mem_cons.mpr (Or.inr hmem)]
      · intro y hy
        rcases List.mem_cons.mp hy with rfl | hy
        · -- y = cur: if key m < key cur then key m < key x, contradiction
          by_contra hc
          rw [Bool.not_eq_false] at hc
          have hx2 : strLtB (selKeyStr y).data (selKeyStr x).data = true := by
            rw [hkc, hkx]
            exact hcmp
          have := strLtB_trans _ _ _ hc hx2
          have hmx := hmax x (List.mem_cons_self _ _)
          rw [pyStrLt] at hmx
          rw [hmx] at this
          cases this
        · exact hmax y hy
    · -- key cur < key x is false: keep cur
      obtain ⟨m, hm, hmem, hmax⟩ := pyMaxBy_selKey_spec rest cur
        (by
          intro y hy
          rcases List.mem_cons.mp hy with rfl | hy
          · exact ⟨sc, hsc⟩
          · exact hstr y (by simp [hy]))
      refine ⟨m, hm, ?_, ?_⟩
      · rcases List.mem_cons.mp hmem with rfl | hmem
        · exact List.mem_cons_self _ _
        · simp [List.mem_cons.mpr (Or.inr hmem)]
      · intro y hy
        rcases List.mem_cons.mp hy with rfl | hy
        · exact hmax y (List.mem_cons_self _ _)
        rcases List.mem_cons.mp hy with rfl | hy
        · -- y = x: from key m >= key cur >= key x
          have h1 : strLtB (selKeyStr cur).data (selKeyStr y).data = false := by
            rw [hkc, hkx]
            exact hcmp
          have h2 : pyStrLt (selKeyStr m) (selKeyStr cur) = false :=
            hmax cur (List.mem_cons_self _ _)
          exact strLtB_le_trans _ _ _ h1 h2
        · exact hmax y (by simp [hy])

theorem pyMinBy_selKey_spec : ∀ (xs : List Obj) (cur : Obj),
    (∀ x ∈ cur :: xs, ∃ s, selKey x = .str s) →
    ∃ m, pyMinBy selKey cur xs = .ok m ∧ m ∈ cur :: xs ∧
      ∀ x ∈ cur :: xs, pyStrLt (selKeyStr x) (selKeyStr m) = false
  | [], cur, _ => by
    refine ⟨cur, rfl, List.mem_cons_self _ _, ?_⟩
    intro x hx
    rcases List.mem_singleton.mp hx with rfl
    simp [pyStrLt, strLtB_irrefl]
  | x :: rest, cur, hstr => by
    obtain ⟨sc, hsc⟩ := hstr cur (List.mem_cons_self _ _)
    obtain ⟨sx, hsx⟩ := hstr x (by simp)
    have hkc : selKeyStr cur = sc := by simp [selKeyStr, hsc]
    have hkx : selKeyStr x = sx := by simp [selKeyStr, hsx]
    rcases Bool.eq_false_or_eq_true (pyStrLt sx sc) with hcmp | hcmp
    all_goals simp only [pyMinBy, hsc, hsx, pyLt, hcmp]
    · -- key x < key cur: x becomes the running best
      obtain ⟨m, hm, hmem, hmin⟩ := pyMinBy_selKey_spec rest x
        (by
          intro y hy
          rcases List.mem_cons.mp hy with rfl | hy
          · exact ⟨sx, hsx⟩
          · exact hstr y (by simp [hy]))
      refine ⟨m, hm, ?_, ?_⟩
      · rcases List.mem_cons.mp hmem with rfl | hmem
        · simp
        · simp [List.mem_cons.mpr (Or.inr hmem)]
      · intro y hy
        rcases List.mem_cons.mp hy with rfl | hy
        · -- y = cur: if key cur < key m then key x < key m, contradiction
          by_contra hc
          rw [Bool.not_eq_false] at hc
          have hx2 : strLtB (selKeyStr x).data (selKeyStr y).data = true := by
            rw [hkc, hkx]
            exact hcmp
          have := strLtB_trans _ _ _ hx2 hc
          have hmx := hmin x (List.mem_cons_self _ _)
          rw [pyStrLt] at hmx
          rw [hmx] at this
          cases this
        · exact hmin y hy
    · -- key x < key cur is false: keep cur
      obtain ⟨m, hm, hmem, hmin⟩ := pyMinBy_selKey_spec rest cur
        (by
          intro y hy
          rcases List.mem_cons.mp hy with rfl | hy
          · exact ⟨sc, hsc⟩
          · exact hstr y (by simp [hy]))
      refine ⟨m, hm, ?_, ?_⟩
      · rcases List.mem_cons.mp hmem with rfl | hmem
        · exact List.mem_cons_self _ _
        · simp [List.mem_cons.mpr (Or.inr hmem)]
      · intro y hy
        rcases List.mem_cons.mp hy with rfl | hy
        · exact hmin y (List.mem_cons_self _ _)
        rcases List.mem_cons.mp hy with rfl | hy
        · -- y = x: key m <= key cur <= key x
          have h1 : strLtB (selKeyStr cur).data (selKeyStr m).data = false :=
            hmin cur (List.mem_cons_self _ _)
          have h2 : strLtB (selKeyStr y).data (selKeyStr cur).data = false := by
            rw [hkc, hkx]
            exact hcmp
          exact strLtB_le_trans _ _ _ h1 h2
        · exact hmin y (by simp [hy])

theorem extractTracks_error (d : JVal) (e : PyErr)
    (h : extractTracks d = .error e) :
    e = .validation "Unexpected data format" := by
  cases d with
  | null => injection h with h2; exact h2.symm
  | str s => injection h with h2; exact h2.symm
  | num n => injection h with h2; exact h2.symm
  | obj kvs => simp [extractTracks] at h
  | list xs =>
    exfalso
    cases xs with
    | nil => simp [extractTracks] at h
    | cons x tail =>
      cases x with
      | obj kvs =>
        cases tail with
        | nil =>
          rcases Bool.eq_false_or_eq_true ((objGet kvs "tracks").isSome)
            with hh | hh <;> simp [extractTracks, hh] at h
        | cons y t2 => simp [extractTracks] at h
      | null => cases tail <;> simp [extractTracks] at h
      | str s => cases tail <;> simp [extractTracks] at h
      | num n => cases tail <;> simp [extractTracks] at h
      | list l => cases tail <;> simp [extractTracks] at h

theorem asObjListGo_error : ∀ (xs : List JVal) (e : PyErr),
    asObjListGo xs = .error e →
    e = .attrError "track point has no attribute get"
  | [], _, h => by simp [asObjListGo] at h
  | .obj kvs :: rest, e, h => by
    simp only [asObjListGo] at h
    rcases hr : asObjListGo rest with e2 | os
    · rw [hr] at h
      injection h with h2
      exact h2 ▸ asObjListGo_error rest e2 hr
    · rw [hr] at h
      cases h
  | .null :: rest, e, h => (Except.error.inj h).symm
  | .str _ :: rest, e, h => (Except.error.inj h).symm
  | .num _ :: rest, e, h => (Except.error.inj h).symm
  | .list _ :: rest, e, h => (Except.error.inj h).symm

theorem asObjList_error (v : JVal) (e : PyErr) (h : asObjList v = .error e) :
    e = .attrError "track point has no attribute get" ∨
    e = .typeError "tracks value is not a list" := by
  cases v with
  | list xs => exact Or.inl (asObjListGo_error xs e h)
  | null => exact Or.inr (Except.error.inj h).symm
  | str s => exact Or.inr (Except.error.inj h).symm
  | num n => exact Or.inr (Except.error.inj h).symm
  | obj kvs => exact Or.inr (Except.error.inj h).symm

theorem sortTracksE_error (ts : List Obj) (e : PyErr)
    (h : sortTracksE ts = .error e) : e = .typeError "unorderable types" := by
  unfold sortTracksE at h
  split at h
  · cases h
  · split at h
    · cases h
    · exact (Except.error.inj h).symm

/-- C3: `export_flight_data` extracts the point list by priority order: a
list whose single element is a dict containing `"tracks"` yields that
dict's `"tracks"` value; any other list is itself the point list; a dict
yields its `"tracks"` value defaulting to the empty list; every other
input — and only such input — raises the validation error with message
`"Unexpected data format"`. -/
theorem c3_extract_priority (d : JVal) :
    (∀ kvs : Obj, d = .list [.obj kvs] → (objGet kvs "tracks").isSome = true →
      extractTracks d = .ok (getN kvs "tracks"))
    ∧ (∀ xs : List JVal, d = .list xs →
        (∀ kvs : Obj, xs = [.obj kvs] → objGet kvs "tracks" = none) →
        extractTracks d = .ok (.list xs))
    ∧ (∀ kvs : Obj, d = .obj kvs →
        extractTracks d = .ok (getD kvs "tracks" (.list [])))
    ∧ ((∃ e, extractTracks d = .error e) ↔
        (match d with | .list _ => False | .obj _ => False | _ => True))
    ∧ (∀ e, extractTracks d = .error e →
        e = .validation "Unexpected data format") := by
  refine ⟨?_, ?_, ?_, ?_, fun e he => extractTracks_error d e he⟩
  · rintro kvs rfl h
    simp [extractTracks, h]
  · rintro xs rfl h
    cases xs with
    | nil => rfl
    | cons x tail =>
      cases x with
      | obj kvs =>
        cases tail with
        | nil =>
          have hnone := h kvs rfl
          simp [extractTracks, hnone]
        | cons y t2 => rfl
      | null => cases tail <;> rfl
      | str s => cases tail <;> rfl
      | num n => cases tail <;> rfl
      | list l => cases tail <;> rfl
  · rintro kvs rfl
    rfl
  · constructor
    · rintro ⟨e, he⟩
      cases d with
      | null => trivial
      | str s => trivial
      | num n => trivial
      | obj kvs => simp [extractTracks] at he
      | list xs =>
        exfalso
        cases xs with
        | nil => simp [extractTracks] at he
        | cons x tail =>
          cases x with
          | obj kvs =>
            cases tail with
            | nil =>
              rcases Bool.eq_false_or_eq_true ((objGet kvs "tracks").isSome)
                with hh | hh <;> simp [extractTracks, hh] at he
            | cons y t2 => simp [extractTracks] at he
          | null => cases tail <;> simp [extractTracks] at he
          | str s => cases tail <;> simp [extractTracks] at he
          | num n => cases tail <;> simp [extractTracks] at he
          | list l => cases tail <;> simp [extractTracks] at he
    · intro hd
      cases d with
      | null => exact ⟨_, rfl⟩
      | str s => exact ⟨_, rfl⟩
      | num n => exact ⟨_, rfl⟩
      | list xs => exact hd.elim
      | obj kvs => exact hd.elim

/-- C3 witness: the priority order evaluated on concrete responses of
each shape. -/
theorem c3_extract_priority_witness :
    extractTracks (.list [.obj [("tracks", .list [.num 1])]])
      = .ok (.list [.num 1])
    ∧ extractTracks (.list [.num 5]) = .ok (.list [.num 5])
    ∧ extractTracks (.obj [("x", .num 1)]) = .ok (.list [])
    ∧ extractTracks (.str "x")
      = .error (.validation "Unexpected data format") := by
  refine ⟨?_, ?_, by decide, by decide⟩
  · exact (c3_extract_priority _).1 [("tracks", .list [.num 1])] rfl (by decide)
  · exact (c3_extract_priority _).2.1 [.num 5] rfl (by intro kvs h; cases h)

/-- C10: the timestamp sort keys on the raw field value (empty string
only when the key is absent); comparing `None` against a string is
undefined, so the sort — and hence the whole export — is total when
every present timestamp is a string, and fails with `TypeError` on a
list mixing string timestamps with a present-but-null one. -/
theorem c10_raw_sort_key :
    (∀ (t : Obj) (v : JVal), objGet t "timestamp" = some v → tsKey t = v)
    ∧ (∀ t : Obj, objGet t "timestamp" = none → tsKey t = .str "")
    ∧ (∀ s, pyLt .null (.str s) = .error (.typeError "unorderable types")
          ∧ pyLt (.str s) .null = .error (.typeError "unorderable types"))
    ∧ (∀ ts : List Obj, strKeys ts = true → ∃ l, sortTracksE ts = .ok l)
    ∧ sortTracksE [pStrPoint, pNullPoint] =
        .error (.typeError "unorderable types")
    ∧ (∀ env : PlotEnv, exportFlightData env
        (fun _ => .list [.obj pStrPoint, .obj pNullPoint]) "f2" none
        = ([], .error (.typeError "unorderable types"))) := by
  refine ⟨?_, ?_, fun s => ⟨rfl, rfl⟩, ?_, by decide, fun env => rfl⟩
  · intro t v h
    simp [tsKey, getD, h]
  · intro t h
    simp [tsKey, getD, h]
  · intro ts h
    unfold sortTracksE
    rw [h]
    split
    · exact ⟨ts, rfl⟩
    · exact ⟨_, rfl⟩

/-- C10 witness: the raw-key clauses and totality clause evaluated on
concrete points. -/
theorem c10_raw_sort_key_witness :
    tsKey pNullPoint = .null ∧ tsKey pNoTsPoint = .str ""
    ∧ ∃ l, sortTracksE [pStrPoint] = .ok l := by
  refine ⟨c10_raw_sort_key.1 pNullPoint .null (by decide),
    c10_raw_sort_key.2.1 pNoTsPoint (by decide),
    c10_raw_sort_key.2.2.2.1 [pStrPoint] (by decide)⟩

/-- C6: the normalized track list is sorted ascending by the timestamp
string (missing timestamps keyed as `""`, which sorts first), and sorting
an already-sorted list returns it unchanged (Python `sorted` is stable,
modelled by the stable `mergeSort`). -/
theorem c6_sorted_normalization (ts : List Obj) (h : strKeys ts = true) :
    sortTracksE ts = .ok (sortTracks ts)
    ∧ (sortTracks ts).Pairwise (fun a b => trackLe a b = true)
    ∧ (∀ us : List Obj, us.Pairwise (fun a b => trackLe a b = true) →
        sortTracks us = us)
    ∧ (∀ a b : Obj, keyStr a = "" → trackLe a b = true) := by
  refine ⟨?_, ?_, ?_, ?_⟩
  · by_cases hlen : ts.length ≤ 1
    · have hsort : sortTracks ts = ts := by
        cases ts with
        | nil => exact List.mergeSort_of_sorted List.Pairwise.nil
        | cons a tail =>
          cases tail with
          | nil => exact List.mergeSort_of_sorted (by simp)
          | cons b t2 => simp at hlen
      unfold sortTracksE
      rw [if_pos hlen, hsort]
    · unfold sortTracksE
      rw [if_neg hlen, h]
      simp
  · exact List.sorted_mergeSort (fun a b c => trackLe_trans a b c)
      (fun a b => trackLe_total a b) ts
  · intro us hus
    exact List.mergeSort_of_sorted hus
  · intro a b hk
    have hd : (keyStr a).data = [] := by rw [hk]
    simp [trackLe, pyStrLt, hd, strLtB_nil_right]

/-- C6 witness: the sort actually used by the export evaluated on a
two-point list, one point lacking a timestamp. -/
theorem c6_sorted_normalization_witness :
    sortTracksE [pStrPoint, pNoTsPoint] = .ok (sortTracks [pStrPoint, pNoTsPoint])
    ∧ sortTracks [pNoTsPoint, pStrPoint] = [pNoTsPoint, pStrPoint] :=
  ⟨(c6_sorted_normalization [pStrPoint, pNoTsPoint] (by decide)).1,
   (c6_sorted_normalization [] (by decide)).2.2.1 [pNoTsPoint, pStrPoint]
     (by decide)⟩

/-- C7: the CSV rows are exactly the fixed header followed by one row
per (sorted) track point, with missing fields rendered as the empty
string, so that re-parsing yields the same fieldnames and the same row
count as the input track list. -/
theorem c7_csv_roundtrip (ts : List Obj) (_h : ts ≠ []) :
    csvFieldnames = ["timestamp", "lat", "lon", "alt", "gspeed", "vspeed",
      "track", "squawk", "callsign", "source"]
    ∧ (csvRows (sortTracks ts)).head? = some csvFieldnames
    ∧ (csvRows (sortTracks ts)).length = ts.length + 1
    ∧ (csvRows (sortTracks ts)).tail =
        (sortTracks ts).map (fun t => csvFieldnames.map
          (fun k => csvCell (getD t k (.str ""))))
    ∧ (∀ (t : Obj) (k : String), objGet t k = none →
        csvCell (getD t k (.str "")) = "") := by
  refine ⟨rfl, rfl, ?_, rfl, ?_⟩
  · simp only [csvRows, List.length_cons, Nat.add_right_cancel_iff,
      List.length_map]
    exact (List.mergeSort_perm ts trackLe).length_eq
  · intro t k hk
    simp [csvCell, getD, hk, pyStr]

/-- C7 witness: the CSV shape evaluated on a one-point track list. -/
theorem c7_csv_roundtrip_witness :
    (csvRows (sortTracks [trackPoint1])).head? = some csvFieldnames
    ∧ (csvRows (sortTracks [trackPoint1])).length = 1 + 1
    ∧ csvCell (getD trackPoint1 "squawk" (.str "")) = "" :=
  ⟨(c7_csv_roundtrip [trackPoint1] (by decide)).2.1,
   (c7_csv_roundtrip [trackPoint1] (by decide)).2.2.1,
   (c7_csv_roundtrip [trackPoint1] (by decide)).2.2.2.2 trackPoint1 "squawk"
     (by decide)⟩

/-- C9: when the extracted track list is empty, `export_flight_data`
returns `None` having performed no filesystem operation, and a
`smart_export_flight` call selecting such a flight returns a record with
`selected` set but `output_dir` null. -/
theorem c9_empty_tracks_noop :
    (∀ (env : PlotEnv) (tracksFor : String → JVal) (fid : String)
        (od : Option String), extractTracks (tracksFor fid) = .ok (.list []) →
        exportFlightData env tracksFor fid od = ([], .ok none))
    ∧ (∀ (env : PlotEnv) (tracksFor : String → JVal) (fn date : String)
        (od : Option String) (asel : Option JVal) (c : Obj)
        (outDir fid : String),
        deriveOutputDir c fn date od = .ok (outDir, fid) →
        extractTracks (tracksFor fid) = .ok (.list []) →
        smartExportFlight env tracksFor fn date od asel [c] =
          ([], .ok [("output_dir", .null), ("selected", .obj c),
                    ("options", .list [.obj c])])) := by
  have key : ∀ (env : PlotEnv) (tracksFor : String → JVal) (fid : String)
      (od : Option String), extractTracks (tracksFor fid) = .ok (.list []) →
      exportFlightData env tracksFor fid od = ([], .ok none) := by
    intro env tf fid od h
    unfold exportFlightData
    rw [h]
    rfl
  refine ⟨key, ?_⟩
  intro env tf fn date od asel c outDir fid hD hT
  have hexp := key env tf fid (some outDir) hT
  simp only [smartExportFlight, smartSelectE, List.isEmpty_nil, Bool.true_or,
    if_true, hD, hexp]
  rfl

/-- C4 counterexample: with every external stage succeeding except the
unguarded plotting block of `_plot_speed_chart`, the chart failure
escapes `export_flight_data` instead of degrading to a skipped
artifact. -/
theorem c4_chart_failure_propagates :
    (exportFlightData envBadSpeed (fun _ => oneTrack) "f1" none).2 =
      .error (.chartFail "speed") := by decide

/-- C4 (amended): a failure in any guarded plotting stage degrades to a
skipped artifact, and when the unguarded matplotlib stages succeed no
chart failure ever leaves `export_flight_data`. -/
theorem c4_guarded_failures_degrade :
    (∀ (env : PlotEnv) (ts : List Obj) (p : String), env.axPlot = true →
      env.finalizePlot = true → ∃ l, enhancedPlot env ts p = .ok l)
    ∧ (∀ (env : PlotEnv) (ts : List Obj) (p : String), env.saveSpeed = true →
      ∃ l, plotSpeedChart env ts p = .ok l)
    ∧ (∀ (env : PlotEnv) (ts : List Obj) (p : String), env.saveAlt = true →
      ∃ l, plotAltChart env ts p = .ok l)
    ∧ (∀ (env : PlotEnv) (tracksFor : String → JVal) (fid : String)
        (od : Option String) (w : String), env.axPlot = true →
        env.finalizePlot = true → env.saveSpeed = true → env.saveAlt = true →
        (exportFlightData env tracksFor fid od).2 ≠ .error (.chartFail w)) := by
  have hmap : ∀ (env : PlotEnv) (ts : List Obj) (p : String),
      env.axPlot = true → env.finalizePlot = true →
      ∃ l, enhancedPlot env ts p = .ok l := by
    intro env ts p h1 h2
    unfold enhancedPlot
    rw [h1, h2]
    cases hts : ts.isEmpty <;>
      cases hg : env.mkGeoDataFrame <;>
        cases hc : env.toCrs <;>
          cases hb : env.setBounds <;>
            cases hm : env.addBasemap <;>
              cases hs : env.saveMap <;>
                simp
  have hspeed : ∀ (env : PlotEnv) (ts : List Obj) (p : String),
      env.saveSpeed = true → ∃ l, plotSpeedChart env ts p = .ok l := by
    intro env ts p h1
    unfold plotSpeedChart
    rw [h1]
    cases hcs : (chartSeries env "gspeed" 1000 ts).isEmpty <;> simp
  have halt : ∀ (env : PlotEnv) (ts : List Obj) (p : String),
      env.saveAlt = true → ∃ l, plotAltChart env ts p = .ok l := by
    intro env ts p h1
    unfold plotAltChart
    rw [h1]
    cases hcs : (chartSeries env "alt" 50000 ts).isEmpty <;> simp
  refine ⟨hmap, hspeed, halt, ?_⟩
  intro env tf fid od w h1 h2 h3 h4 hcontra
  unfold exportFlightData at hcontra
  cases hE : extractTracks (tf fid) with
  | error e =>
    simp only [hE] at hcontra
    have := extractTracks_error _ _ hE
    subst this
    simp at hcontra
  | ok tracks =>
    simp only [hE] at hcontra
    cases htr : truthy tracks with
    | false => simp [htr] at hcontra
    | true =>
      simp only [htr, Bool.not_true, Bool.false_eq_true, if_false] at hcontra
      cases hL : asObjList tracks with
      | error e =>
        simp only [hL] at hcontra
        rcases asObjList_error _ _ hL with rfl | rfl <;> simp at hcontra
      | ok ts =>
        simp only [hL] at hcontra
        cases hS : sortTracksE ts with
        | error e =>
          simp only [hS] at hcontra
          have := sortTracksE_error _ _ hS
          subst this
          simp at hcontra
        | ok sorted =>
          simp only [hS] at hcontra
          cases od with
          | none =>
            obtain ⟨l1, hl1⟩ := hmap env sorted
              (("data/" ++ fid) ++ "/map.png") h1 h2
            obtain ⟨l2, hl2⟩ := hspeed env sorted
              (("data/" ++ fid) ++ "/speed.png") h3
            obtain ⟨l3, hl3⟩ := halt env sorted
              (("data/" ++ fid) ++ "/altitude.png") h4
            simp only [hl1, hl2, hl3] at hcontra
            simp at hcontra
          | some sdir =>
            obtain ⟨l1, hl1⟩ := hmap env sorted (sdir ++ "/map.png") h1 h2
            obtain ⟨l2, hl2⟩ := hspeed env sorted (sdir ++ "/speed.png") h3
            obtain ⟨l3, hl3⟩ := halt env sorted (sdir ++ "/altitude.png") h4
            simp only [hl1, hl2, hl3] at hcontra
            simp at hcontra

/-- C4 amended-claim witness: with every guarded stage failing but the
unguarded stages succeeding, each chart degrades to a skipped artifact
and the whole export returns its directory. -/
theorem c4_guarded_failures_degrade_witness :
    (∃ l, enhancedPlot envGuardFail [trackPoint1] "m.png" = .ok l)
    ∧ (∃ l, plotSpeedChart envGuardFail [trackPoint1] "s.png" = .ok l)
    ∧ (∃ l, plotAltChart envGuardFail [trackPoint1] "a.png" = .ok l)
    ∧ (exportFlightData envGuardFail (fun _ => oneTrack) "f1" none).2 ≠
        .error (.chartFail "speed") :=
  ⟨c4_guarded_failures_degrade.1 envGuardFail [trackPoint1] "m.png" rfl rfl,
   c4_guarded_failures_degrade.2.1 envGuardFail [trackPoint1] "s.png" rfl,
   c4_guarded_failures_degrade.2.2.1 envGuardFail [trackPoint1] "a.png" rfl,
   c4_guarded_failures_degrade.2.2.2 envGuardFail (fun _ => oneTrack) "f1"
     none "speed" rfl rfl rfl rfl⟩

/-- C1: zero summary candidates yield the error record with nothing
selected; exactly one candidate is selected whatever `auto_select` holds
(valid or not); several candidates with `auto_select=None` come back as
options with nothing selected. -/
theorem c1_disambiguation_cases :
    (∀ (env : PlotEnv) (tf : String → JVal) (fn date : String)
        (od : Option String) (asel : Option JVal),
      (smartExportFlight env tf fn date od asel []).2 =
        .ok [("output_dir", .null), ("selected", .null), ("options", .list []),
             ("error", .str ("No flights found for " ++ fn ++ " on " ++ date))])
    ∧ (∀ (env : PlotEnv) (tf : String → JVal) (fn date : String)
        (od : Option String) (asel : Option JVal) (c : Obj) (ops : List FsOp)
        (r : Obj),
        smartExportFlight env tf fn date od asel [c] = (ops, .ok r) →
        objGet r "selected" = some (.obj c))
    ∧ (∀ (env : PlotEnv) (tf : String → JVal) (fn date : String)
        (od : Option String) (data : List Obj) (ops : List FsOp) (r : Obj),
        1 < data.length →
        smartExportFlight env tf fn date od none data = (ops, .ok r) →
        objGet r "selected" = some .null
        ∧ objGet r "options" = some (.list (data.map .obj))
        ∧ (data.map JVal.obj).length = data.length) := by
  refine ⟨fun env tf fn date od asel => rfl, ?_, ?_⟩
  · intro env tf fn date od asel c ops r h
    simp only [smartExportFlight, smartSelectE, List.isEmpty_nil, Bool.true_or,
      if_true] at h
    cases hD : deriveOutputDir c fn date od with
    | error e =>
      simp only [hD] at h
      simp at h
    | ok p =>
      obtain ⟨outDir, fid⟩ := p
      simp only [hD] at h
      cases hE : (exportFlightData env tf fid (some outDir)).2 with
      | error e =>
        simp only [hE] at h
        simp at h
      | ok d =>
        simp only [hE, Prod.mk.injEq] at h
        obtain ⟨-, h2⟩ := h
        injection h2 with h2
        subst h2
        simp [objGet, List.find?]
  · intro env tf fn date od data ops r hlen h
    cases data with
    | nil => simp at hlen
    | cons d0 rest =>
      cases rest with
      | nil => simp at hlen
      | cons d1 tail =>
        simp only [smartExportFlight, List.isEmpty_cons, Option.isSome_none,
          Bool.or_self, Bool.false_eq_true, if_false, Prod.mk.injEq] at h
        obtain ⟨-, h2⟩ := h
        injection h2 with h2
        subst h2
        refine ⟨?_, ?_, by simp⟩
        · simp [objGet, List.find?]
        · simp [objGet, List.find?]

/-- C1 witness: the zero-candidate path with an invalid `auto_select`,
and a single-candidate run with an out-of-range integer `auto_select`
that still selects the lone record. -/
theorem c1_disambiguation_cases_witness :
    (smartExportFlight envOk (fun _ => .null) "UA1" "2025-01-01" none
      (some (.str "bogus")) []).2 =
      .ok [("output_dir", .null), ("selected", .null), ("options", .list []),
           ("error", .str "No flights found for UA1 on 2025-01-01")]
    ∧ objGet [("output_dir", .str "data/UA2151_2025-04-22_KEWR-KDEN_3a01b036"),
        ("selected", .obj selUA), ("options", .list [.obj selUA])] "selected"
        = some (.obj selUA) := by
  constructor
  · exact c1_disambiguation_cases.1 envOk (fun _ => .null) "UA1" "2025-01-01"
      none (some (.str "bogus"))
  · exact c1_disambiguation_cases.2.1 envOk (fun _ => oneTrack) "UA 2151"
      "2025-04-22" none (some (.num 99)) selUA
      (smartExportFlight envOk (fun _ => oneTrack) "UA 2151" "2025-04-22" none
        (some (.num 99)) [selUA]).1
      [("output_dir", .str "data/UA2151_2025-04-22_KEWR-KDEN_3a01b036"),
       ("selected", .obj selUA), ("options", .list [.obj selUA])]
      (Prod.ext rfl (by decide))

/-- C5 counterexample: the multi-candidate, no-`auto_select` return (and
likewise the success return) carries only the keys `output_dir`,
`selected` and `options` — the `error` key is absent, so the claimed
four-key shape does not hold on every path. -/
theorem c5_missing_error_key :
    (smartExportFlight envOk (fun _ => .null) "UA1" "2025-03-01" none none
      [candA, candB]).2 =
      .ok [("output_dir", .null), ("selected", .null),
           ("options", .list [.obj candA, .obj candB])]
    ∧ objGet [("output_dir", JVal.null), ("selected", JVal.null),
        ("options", .list [.obj candA, .obj candB])] "error" = none :=
  ⟨by decide, by decide⟩

/-- C5 (amended): every dict returned by `smart_export_flight` has the
keys `output_dir`, `selected` and `options`; the `error` key, when
present, holds a string, and it is present exactly on the
zero-candidate and invalid-`auto_select` paths. -/
theorem c5_result_shape (env : PlotEnv) (tf : String → JVal)
    (fn date : String) (od : Option String) (asel : Option JVal)
    (data : List Obj) (ops : List FsOp) (r : Obj)
    (h : smartExportFlight env tf fn date od asel data = (ops, .ok r)) :
    (objGet r "output_dir").isSome = true
    ∧ (objGet r "selected").isSome = true
    ∧ (objGet r "options").isSome = true
    ∧ (objGet r "error" = none ∨ ∃ s, objGet r "error" = some (.str s)) := by
  cases data with
  | nil =>
    simp only [smartExportFlight, Prod.mk.injEq] at h
    obtain ⟨-, h2⟩ := h
    injection h2 with h2
    subst h2
    refine ⟨by simp [objGet, List.find?], by simp [objGet, List.find?],
      by simp [objGet, List.find?],
      Or.inr ⟨"No flights found for " ++ fn ++ " on " ++ date,
        by simp [objGet, List.find?]⟩⟩
  | cons d0 rest =>
    by_cases hc : (rest.isEmpty || asel.isSome) = true
    · simp only [smartExportFlight, hc, if_true] at h
      cases hSel : smartSelectE d0 rest asel with
      | error e =>
        simp only [hSel] at h
        simp at h
      | ok out =>
        cases out with
        | options =>
          simp only [hSel, Prod.mk.injEq] at h
          obtain ⟨-, h2⟩ := h
          injection h2 with h2
          subst h2
          refine ⟨by simp [objGet, List.find?], by simp [objGet, List.find?],
            by simp [objGet, List.find?], Or.inl (by simp [objGet, List.find?])⟩
        | invalid =>
          simp only [hSel, Prod.mk.injEq] at h
          obtain ⟨-, h2⟩ := h
          injection h2 with h2
          subst h2
          refine ⟨by simp [objGet, List.find?], by simp [objGet, List.find?],
            by simp [objGet, List.find?],
            Or.inr ⟨"Invalid auto_select value",
              by simp [objGet, List.find?]⟩⟩
        | chosen c =>
          simp only [hSel] at h
          cases hD : deriveOutputDir c fn date od with
          | error e =>
            simp only [hD] at h
            simp at h
          | ok p =>
            obtain ⟨outDir, fid⟩ := p
            simp only [hD] at h
            cases hE : (exportFlightData env tf fid (some outDir)).2 with
            | error e =>
              simp only [hE] at h
              simp at h
            | ok d =>
              simp only [hE, Prod.mk.injEq] at h
              obtain ⟨-, h2⟩ := h
              injection h2 with h2
              subst h2
              refine ⟨by simp [objGet, List.find?],
                by simp [objGet, List.find?], by simp [objGet, List.find?],
                Or.inl (by simp [objGet, List.find?])⟩
    · simp only [smartExportFlight, hc, if_false, Bool.false_eq_true,
        Prod.mk.injEq] at h
      obtain ⟨-, h2⟩ := h
      injection h2 with h2
      subst h2
      refine ⟨by simp [objGet, List.find?], by simp [objGet, List.find?],
        by simp [objGet, List.find?], Or.inl (by simp [objGet, List.find?])⟩

/-- C5 amended-claim witness: the shape facts on a concrete
zero-candidate run. -/
theorem c5_result_shape_witness :
    (objGet [("output_dir", JVal.null), ("selected", JVal.null),
      ("options", JVal.list []),
      ("error", .str "No flights found for UA9 on 2025-01-02")]
      "output_dir").isSome = true
    ∧ (objGet [("output_dir", JVal.null), ("selected", JVal.null),
        ("options", JVal.list []),
        ("error", .str "No flights found for UA9 on 2025-01-02")]
        "error" = none ∨
       ∃ s, objGet [("output_dir", JVal.null), ("selected", JVal.null),
        ("options", JVal.list []),
        ("error", .str "No flights found for UA9 on 2025-01-02")]
        "error" = some (.str s)) := by
  have h := c5_result_shape envOk (fun _ => .null) "UA9" "2025-01-02" none
    none [] [] [("output_dir", JVal.null), ("selected", JVal.null),
      ("options", JVal.list []),
      ("error", .str "No flights found for UA9 on 2025-01-02")]
    (by decide)
  exact ⟨h.1, h.2.2.2⟩

/-- C2 counterexample: a present-but-empty `datetime_takeoff` is falsy,
so the source key (Python `or`) falls back to `first_seen`; the code
selects `candA` even though, under the claim's key (fallback only when
`datetime_takeoff` is absent), `candA`'s key is strictly below
`candB`'s. -/
theorem c2_falsy_fallback :
    (smartExportFlight envOk (fun _ => .obj []) "UA1" "2025-03-01" none
      (some (.str "latest")) [candA, candB]).2 =
      .ok [("output_dir", .null), ("selected", .obj candA),
           ("options", .list [.obj candA, .obj candB])]
    ∧ pyLt (selKeySpec candA) (selKeySpec candB) = .ok true :=
  ⟨by decide, by decide⟩

/-- C2 (amended): `auto_select="latest"` selects the record returned by
`max` over the key `datetime_takeoff`-when-truthy else `first_seen`
else `""`; when all keys are strings that record's key is maximal under
string comparison (first occurrence winning ties), and dually
`"earliest"` selects a minimal one.  On the specification's
three-candidate example, `latest` selects the second candidate and
`earliest` the third. -/
theorem c2_latest_earliest :
    (∀ (env : PlotEnv) (tf : String → JVal) (fn date : String)
        (od : Option String) (d0 : Obj) (rest : List Obj) (ops : List FsOp)
        (r m : Obj),
      rest ≠ [] →
      pyMaxBy selKey d0 rest = .ok m →
      smartExportFlight env tf fn date od (some (.str "latest")) (d0 :: rest)
        = (ops, .ok r) →
      objGet r "selected" = some (.obj m)
      ∧ ((∀ c ∈ d0 :: rest, ∃ s, selKey c = .str s) →
          m ∈ d0 :: rest ∧
          ∀ c ∈ d0 :: rest, pyStrLt (selKeyStr m) (selKeyStr c) = false))
    ∧ (∀ (env : PlotEnv) (tf : String → JVal) (fn date : String)
        (od : Option String) (d0 : Obj) (rest : List Obj) (ops : List FsOp)
        (r m : Obj),
      rest ≠ [] →
      pyMinBy selKey d0 rest = .ok m →
      smartExportFlight env tf fn date od (some (.str "earliest")) (d0 :: rest)
        = (ops, .ok r) →
      objGet r "selected" = some (.obj m)
      ∧ ((∀ c ∈ d0 :: rest, ∃ s, selKey c = .str s) →
          m ∈ d0 :: rest ∧
          ∀ c ∈ d0 :: rest, pyStrLt (selKeyStr c) (selKeyStr m) = false))
    ∧ (smartExportFlight envOk (fun _ => .obj []) "UA1" "2025-03-01" none
        (some (.str "latest")) [candT1, candT2, candT3]).2 =
        .ok [("output_dir", .null), ("selected", .obj candT2),
             ("options", .list [.obj candT1, .obj candT2, .obj candT3])]
    ∧ (smartExportFlight envOk (fun _ => .obj []) "UA1" "2025-03-01" none
        (some (.str "earliest")) [candT1, candT2, candT3]).2 =
        .ok [("output_dir", .null), ("selected", .obj candT3),
             ("options", .list [.obj candT1, .obj candT2, .obj candT3])] := by
  refine ⟨?_, ?_, by decide, by decide⟩
  · intro env tf fn date od d0 rest ops r m hrest hmax h
    cases rest with
    | nil => exact absurd rfl hrest
    | cons d1 tail =>
      constructor
      · simp only [smartExportFlight, smartSelectE, List.isEmpty_cons,
          Bool.false_eq_true, if_false, Option.isSome_some, Bool.or_true,
          if_true, hmax, Except.map] at h
        cases hD : deriveOutputDir m fn date od with
        | error e =>
          simp only [hD] at h
          simp at h
        | ok p =>
          obtain ⟨outDir, fid⟩ := p
          simp only [hD] at h
          cases hE : (exportFlightData env tf fid (some outDir)).2 with
          | error e =>
            simp only [hE] at h
            simp at h
          | ok d =>
            simp only [hE, Prod.mk.injEq] at h
            obtain ⟨-, h2⟩ := h
            injection h2 with h2
            subst h2
            simp [objGet, List.find?]
      · intro hstr
        obtain ⟨m2, hm2, hmem, hmaxp⟩ := pyMaxBy_selKey_spec (d1 :: tail) d0 hstr
        rw [hmax] at hm2
        injection hm2 with hm2
        subst hm2
        exact ⟨hmem, hmaxp⟩
  · intro env tf fn date od d0 rest ops r m hrest hmin h
    cases rest with
    | nil => exact absurd rfl hrest
    | cons d1 tail =>
      constructor
      · simp only [smartExportFlight, smartSelectE, List.isEmpty_cons,
          Bool.false_eq_true, if_false, Option.isSome_some, Bool.or_true,
          if_true, hmin, Except.map] at h
        cases hD : deriveOutputDir m fn date od with
        | error e =>
          simp only [hD] at h
          simp at h
        | ok p =>
          obtain ⟨outDir, fid⟩ := p
          simp only [hD] at h
          cases hE : (exportFlightData env tf fid (some outDir)).2 with
          | error e =>
            simp only [hE] at h
            simp at h
          | ok d =>
            simp only [hE, Prod.mk.injEq] at h
            obtain ⟨-, h2⟩ := h
            injection h2 with h2
            subst h2
            simp [objGet, List.find?]
      · intro hstr
        obtain ⟨m2, hm2, hmem, hminp⟩ := pyMinBy_selKey_spec (d1 :: tail) d0 hstr
        rw [hmin] at hm2
        injection hm2 with hm2
        subst hm2
        exact ⟨hmem, hminp⟩

/-- C2 amended-claim witness: on the three-candidate example, `latest`
selects the second candidate, a member of the list whose key is not
below the third candidate's. -/
theorem c2_latest_earliest_witness :
    objGet [("output_dir", JVal.null), ("selected", .obj candT2),
      ("options", .list [.obj candT1, .obj candT2, .obj candT3])] "selected"
      = some (.obj candT2)
    ∧ candT2 ∈ [candT1, candT2, candT3]
    ∧ pyStrLt (selKeyStr candT2) (selKeyStr candT3) = false := by
  have h := c2_latest_earliest.1 envOk (fun _ => .obj []) "UA1" "2025-03-01"
    none candT1 [candT2, candT3]
    (smartExportFlight envOk (fun _ => .obj []) "UA1" "2025-03-01" none
      (some (.str "latest")) [candT1, candT2, candT3]).1
    [("output_dir", JVal.null), ("selected", .obj candT2),
     ("options", .list [.obj candT1, .obj candT2, .obj candT3])]
    candT2 (by decide) (by decide) (Prod.ext rfl (by decide))
  have hstr : ∀ c ∈ [candT1, candT2, candT3], ∃ s, selKey c = .str s := by
    intro c hc
    rcases List.mem_cons.mp hc with rfl | hc
    · exact ⟨"2025-03-01T10:00:00Z", by decide⟩
    rcases List.mem_cons.mp hc with rfl | hc
    · exact ⟨"2025-03-01T14:00:00Z", by decide⟩
    rcases List.mem_cons.mp hc with rfl | hc
    · exact ⟨"2025-03-01T09:00:00Z", by decide⟩
    · exact absurd hc (List.not_mem_nil c)
  exact ⟨h.1, (h.2 hstr).1, (h.2 hstr).2 candT3 (by simp)⟩

/-- C8 counterexample: a path separator in the flight number is replaced
with an underscore, not removed: flight `A/B` derives
`data/A_B_2025-04-22_KEWR-KDEN_3a01b036`, which differs from the
removed-separator reading `data/AB_...`. -/
theorem c8_slash_replaced :
    (smartExportFlight envOk (fun _ => oneTrack) "A/B" "2025-04-22" none none
      [selUA]).2 =
      .ok [("output_dir", .str "data/A_B_2025-04-22_KEWR-KDEN_3a01b036"),
           ("selected", .obj selUA), ("options", .list [.obj selUA])]
    ∧ "data/A_B_2025-04-22_KEWR-KDEN_3a01b036" ≠
        "data/AB_2025-04-22_KEWR-KDEN_3a01b036" :=
  ⟨by decide, by decide⟩

/-- C8 (amended): with no caller-supplied directory the derived path is
`data/` + flight number with `/` replaced by `_` and spaces removed +
`_` + the first 10 characters of the resolved departure timestamp + `_`
+ origin with `/` replaced by `_` + `-` + destination with `/` replaced
by `_` + `_` + the flight id; the specification's `UA 2151` example
holds. -/
theorem c8_output_dir_naming :
    (∀ (c : Obj) (fn date takeoff orig dest fid : String),
      objGet c "datetime_takeoff" = some (.str takeoff) → takeoff ≠ "" →
      objGet c "orig_icao" = some (.str orig) → orig ≠ "" →
      objGet c "dest_icao_actual" = some (.str dest) → dest ≠ "" →
      objGet c "fr24_id" = some (.str fid) → fid ≠ "" →
      deriveOutputDir c fn date none =
        .ok ("data/"
          ++ pyReplace1 (pyReplace1 fn '/' "_") ' ' ""
          ++ "_" ++ pyTake takeoff 10
          ++ "_" ++ pyReplace1 orig '/' "_"
          ++ "-" ++ pyReplace1 dest '/' "_"
          ++ "_" ++ fid, fid))
    ∧ (smartExportFlight envOk (fun _ => oneTrack) "UA 2151" "2025-04-22"
        none none [selUA]).2 =
        .ok [("output_dir", .str "data/UA2151_2025-04-22_KEWR-KDEN_3a01b036"),
             ("selected", .obj selUA), ("options", .list [.obj selUA])] := by
  refine ⟨?_, by decide⟩
  intro c fn date takeoff orig dest fid h1 h1n h2 h2n h3 h3n h4 h4n
  unfold deriveOutputDir
  have e1 : getN c "datetime_takeoff" = .str takeoff := by simp [getN, h1]
  have e2 : getN c "orig_icao" = .str orig := by simp [getN, h2]
  have e3 : getN c "dest_icao_actual" = .str dest := by simp [getN, h3]
  have e4 : getN c "fr24_id" = .str fid := by simp [getN, h4]
  have t1 : truthy (.str takeoff) = true := by simp [truthy, h1n]
  have t2 : truthy (.str orig) = true := by simp [truthy, h2n]
  have t3 : truthy (.str dest) = true := by simp [truthy, h3n]
  have t4 : truthy (.str fid) = true := by simp [truthy, h4n]
  simp [e1, e2, e3, e4, pyOr, t1, t2, t3, t4, asStr, pyStr]

/-- C8 amended-claim witness: the `UA 2151` example evaluated through
the derivation. -/
theorem c8_output_dir_naming_witness :
    deriveOutputDir selUA "UA 2151" "2025-04-22" none =
      .ok ("data/UA2151_2025-04-22_KEWR-KDEN_3a01b036", "3a01b036") := by
  have h := c8_output_dir_naming.1 selUA "UA 2151" "2025-04-22"
    "2025-04-22T12:00:00Z" "KEWR" "KDEN" "3a01b036" (by decide) (by decide)
    (by decide) (by decide) (by decide) (by decide) (by decide) (by decide)
  rw [h]
  decide

/-- C9 witness: a flight id whose raw tracks response extracts to the
empty list, run through both functions. -/
theorem c9_empty_tracks_noop_witness :
    exportFlightData envOk (fun _ => .obj []) "f1" none = ([], .ok none)
    ∧ smartExportFlight envOk (fun _ => .obj []) "UA 2151" "2025-04-22" none
        none [selUA] =
        ([], .ok [("output_dir", .null), ("selected", .obj selUA),
                  ("options", .list [.obj selUA])]) :=
  ⟨c9_empty_tracks_noop.1 envOk (fun _ => .obj []) "f1" none (by decide),
   c9_empty_tracks_noop.2 envOk (fun _ => .obj []) "UA 2151" "2025-04-22" none
     none selUA "data/UA2151_2025-04-22_KEWR-KDEN_3a01b036" "3a01b036"
     (by decide) (by decide)⟩

end PyFR24
